import Mathlib

/-!
# Verification of `argparse-cxx` (src/cxx/src/argparse.hxx)

Shallow embedding of the argument-parser header. The templated argument
classes (`optional_value`, `optional_list`, `required_value`,
`required_list`) and the registration / lookup helpers of
`argparse::command` are fully defined in the header and are embedded
directly from that source. Token windows `(char const *const *argv, int len)`
are embedded as `List String` (the `int` length is the window length), and
the `int` results of the `parse` member functions are embedded as `Int` so
that the `-1` failure sentinel is preserved. The per-type converter
`argparse::parse<T>` (only declared in the header) is an abstract parameter
`conv : String → T`.

The bodies of `command::parse` and `optional_flag::parse` live in an
implementation file that is not part of `src/`; they are modelled from the
spec where needed (see the `Modelled from the spec:` doc comments below).
-/

set_option autoImplicit false

namespace Argparse

/-- Payload state of `argparse::optional_value<T>`: the member
`std::variant<std::monostate, T> _value` (`none` is `monostate`). -/
structure optional_value (T : Type) where
  value : Option T
  deriving Repr, DecidableEq

/-- Embeds `optional_value<T>::get_value` — `std::get_if<T>(&_value)`. -/
def optional_value.get_value {T : Type} (st : optional_value T) : Option T :=
  st.value

/-- Embeds `optional_value<T>::takes`: returns 1. -/
def optional_value.takes {T : Type} (_ : optional_value T) : Nat := 1

/-- Embeds `optional_value<T>::parse(argv, len)`: if `len < 1` return `-1`;
otherwise `_value = argparse::parse<T>(argv[0]); return 1;`. -/
def optional_value.parse {T : Type} (conv : String → T) (st : optional_value T)
    (argv : List String) : optional_value T × Int :=
  match argv with
  | [] => (st, -1)
  | a :: _ => (⟨some (conv a)⟩, 1)

/-- Payload state of `argparse::optional_list<T>`: the member
`std::vector<T> _values`. -/
structure optional_list (T : Type) where
  values : List T
  deriving Repr, DecidableEq

/-- Embeds `optional_list<T>::get_values` — returns `_values`. -/
def optional_list.get_values {T : Type} (st : optional_list T) : List T :=
  st.values

/-- The `size_t` maximum, `std::numeric_limits<size_t>::max()` on a 64-bit
target. -/
def size_t_max : Nat := 2 ^ 64 - 1

/-- Embeds `optional_list<T>::takes`: returns `std::numeric_limits<size_t>::max()`
(the "unbounded" sentinel). -/
def optional_list.takes {T : Type} (_ : optional_list T) : Nat := size_t_max

/-- Embeds `optional_list<T>::parse(argv, len)`: if `len < 1` return `-1`;
otherwise push `argparse::parse<T>(v)` for every `v` in `span(argv, len)`
and return the count, which is `len`. -/
def optional_list.parse {T : Type} (conv : String → T) (st : optional_list T)
    (argv : List String) : optional_list T × Int :=
  match argv with
  | [] => (st, -1)
  | _ :: _ => (⟨st.values ++ argv.map conv⟩, Int.ofNat argv.length)

/-- Payload state of `argparse::required_value<T>`: the member
`std::variant<std::monostate, T> _value`. -/
structure required_value (T : Type) where
  value : Option T
  deriving Repr, DecidableEq

/-- Embeds `required_value<T>::get_value` — `std::get_if<T>(&_value)`. -/
def required_value.get_value {T : Type} (st : required_value T) : Option T :=
  st.value

/-- Embeds `required_value<T>::takes`: returns 1. -/
def required_value.takes {T : Type} (_ : required_value T) : Nat := 1

/-- Embeds `required_value<T>::parse(argv, len)`: if `len < 1` return `-1`;
otherwise `_value = argparse::parse<T>(argv[0]); return 1;`. -/
def required_value.parse {T : Type} (conv : String → T) (st : required_value T)
    (argv : List String) : required_value T × Int :=
  match argv with
  | [] => (st, -1)
  | a :: _ => (⟨some (conv a)⟩, 1)

/-- Payload state of `argparse::required_list<T>`: the member
`std::vector<T> _values`. -/
structure required_list (T : Type) where
  values : List T
  deriving Repr, DecidableEq

/-- Embeds `required_list<T>::get_values` — returns `_values`. -/
def required_list.get_values {T : Type} (st : required_list T) : List T :=
  st.values

/-- Embeds `required_list<T>::takes`: returns `std::numeric_limits<size_t>::max()`. -/
def required_list.takes {T : Type} (_ : required_list T) : Nat := size_t_max

/-- Embeds `required_list<T>::parse(argv, len)`: if `len < 1` return `-1`;
otherwise push `argparse::parse<T>(v)` for every `v` in `span(argv, len)`
and return the count, which is `len`. -/
def required_list.parse {T : Type} (conv : String → T) (st : required_list T)
    (argv : List String) : required_list T × Int :=
  match argv with
  | [] => (st, -1)
  | _ :: _ => (⟨st.values ++ argv.map conv⟩, Int.ofNat argv.length)

/-- Occurrence state of `argparse::optional_flag`: members `size_t _cnt`
and `bool _flag`. -/
structure optional_flag where
  cnt : Nat
  flag : Bool
  deriving Repr, DecidableEq

/-- Embeds `optional_flag::cnt`. -/
def optional_flag.get_cnt (st : optional_flag) : Nat := st.cnt

/-- Embeds `optional_flag::is_set`. -/
def optional_flag.is_set (st : optional_flag) : Bool := st.flag

/-- Embeds `optional_flag::takes`: returns 0 (declared in the header; the spec fixes
flag arity to 0). -/
def optional_flag.takes (_ : optional_flag) : Nat := 0

/-- Modelled from the spec: the body of `optional_flag::parse` lives in the
implementation file missing from `src/`. Per spec §4.1, a matched flag
"ignores any following tokens (arity 0) and instead increments its
occurrence counter and sets its boolean by virtue of being matched at all";
it consumes 0 tokens. -/
def optional_flag.parse (st : optional_flag) (_argv : List String) :
    optional_flag × Int :=
  (⟨st.cnt + 1, true⟩, 0)

/-- An entry of the `command::_optional` registry: one of the three concrete
subclasses of `argparse::optional`, with its identifying short char and long
name and its payload state. Value and list payloads are instantiated at the
string type (spec §4.4: the string conversion is the identity), which is
what every claim over the engine exercises. Descriptions are help-rendering
data only (spec §1) and are not carried. -/
inductive opt_spec where
  | flag : Char → String → optional_flag → opt_spec
  | value : Char → String → optional_value String → opt_spec
  | list : Char → String → optional_list String → opt_spec
  deriving Repr, DecidableEq

/-- Component `optional::_short` of a registered optional spec. -/
def opt_spec.short : opt_spec → Char
  | .flag s _ _ => s
  | .value s _ _ => s
  | .list s _ _ => s

/-- Component `optional::_long` of a registered optional spec. -/
def opt_spec.long : opt_spec → String
  | .flag _ l _ => l
  | .value _ l _ => l
  | .list _ l _ => l

/-- Embeds `optional::abbr`: the tuple `(short, long)`. -/
def opt_spec.abbr (o : opt_spec) : Char × String := (o.short, o.long)

/-- An entry of the `command::_required` registry: one of the two concrete
subclasses of `argparse::argument`, with its name and payload state. -/
inductive req_spec where
  | value : String → required_value String → req_spec
  | list : String → required_list String → req_spec
  deriving Repr, DecidableEq

/-- Embeds `argument::name`. -/
def req_spec.name : req_spec → String
  | .value n _ => n
  | .list n _ => n

/-- Modelled from the spec: a Required Spec is "satisfied" once it has
consumed tokens at least once (§4.3 step 5); since a successful consume
always stores at least one token, payload presence records satisfaction. -/
def req_spec.satisfied : req_spec → Bool
  | .value _ st => st.value.isSome
  | .list _ st => !st.values.isEmpty

/-- Embeds `command::add_optional_arg<Opt>` (header lines 358-370): if any
already-registered optional's `abbr()` shares the new short char or the new
long name, throw `runtime_error("Duplicated optional argument for ...")`
without pushing; otherwise push the new spec and return a reference to the
pushed element, modelled as its index `reg.length` in the new registry. -/
def add_optional_arg (reg : List opt_spec) (o : opt_spec) :
    Except String (List opt_spec × Nat) :=
  if reg.any (fun p => p.short == o.short || p.long == o.long) then
    .error ("Duplicated optional argument for " ++ o.short.toString ++ "/" ++ o.long)
  else
    .ok (reg ++ [o], reg.length)

/-- Embeds `command::add_required_arg<Arg>` (header lines 372-380): if any
already-registered required argument has the same name, throw
`runtime_error("Duplicated required argument for ...")` without pushing;
otherwise push the new spec. The source function body has no return
statement (its deduced `auto` return type is `void`), so unlike
`add_optional_arg` it yields no handle to the pushed element. -/
def add_required_arg (reg : List req_spec) (r : req_spec) :
    Except String (List req_spec) :=
  if reg.any (fun p => r.name == p.name) then
    .error ("Duplicated required argument for " ++ r.name)
  else
    .ok (reg ++ [r])

/-- Outcome of the name-keyed lookup helpers: either the first matching
registered spec, or the `abort()` branch. -/
inductive lookup_result (α : Type) where
  | found : α → lookup_result α
  | aborted : lookup_result α
  deriving Repr, DecidableEq

/-- Embeds `command::get_optional<T>` (header lines 382-391): filter the
`_optional` registry by exact long-name match; if the filtered view is
empty call `abort()`, otherwise return the first match. -/
def get_optional (reg : List opt_spec) (l : String) : lookup_result opt_spec :=
  match reg.filter (fun o => o.long == l) with
  | [] => .aborted
  | o :: _ => .found o

/-- Embeds `command::get_required<T>` (header lines 393-400): filter the
`_required` registry by exact name match; if the filtered view is empty
call `abort()`, otherwise return the first match. -/
def get_required (reg : List req_spec) (n : String) : lookup_result req_spec :=
  match reg.filter (fun r => r.name == n) with
  | [] => .aborted
  | r :: _ => .found r

/-- C++ types appearing in the signatures of the registration methods of
`argparse::command`, used to record what each method is declared to return. -/
inductive cxx_type where
  | void
  | ref_optional_flag
  | ref_optional_value
  | ref_optional_list
  | ref_required_value
  | ref_required_list
  deriving Repr, DecidableEq

/-- Return type of `command::add_required_arg<Arg>` as written (header lines
372-380): the body contains no return statement, so the deduced `auto`
return type is `void`. -/
def add_required_arg_return_type : cxx_type := .void

/-- Declared return type of `command::add_req_value<T>` (header line 306):
`optional_value<T> const &`, although the method registers a
`required_value<T>` via `add_required_arg`. -/
def add_req_value_declared_return_type : cxx_type := .ref_optional_value

/-- Declared return type of the name-keyed `command::add_req_list<T>`
overload (header line 311): `optional_list<T> const &`, although the method
registers a `required_list<T>` via `add_required_arg`. -/
def add_req_list_declared_return_type : cxx_type := .ref_optional_list

/-- Return type of `command::add_optional_arg<Opt>` (header line 359):
`Opt const &`, a reference to the spec just pushed. -/
def add_optional_arg_return_type (declared : cxx_type) : cxx_type := declared

/-- Parse-time error kinds of the engine (spec §7). -/
inductive parse_error where
  | unknown_option
  | missing_value
  | conversion_failure
  | unsatisfied_required
  | unexpected_token
  | ambiguous_short_group
  deriving Repr, DecidableEq

/-- Modelled from the spec (§4.3 step 1): a token is classified as a long
flag when it begins with the two-dash prefix. -/
def is_long_flag (t : String) : Bool :=
  match t.toList with
  | '-' :: '-' :: _ => true
  | _ => false

/-- Modelled from the spec (§4.3 step 1): a token is classified as a short
flag (or short-flag group) when it begins with a single dash and is not
exactly the lone dash. -/
def is_short_flag (t : String) : Bool :=
  match t.toList with
  | '-' :: '-' :: _ => false
  | ['-'] => false
  | '-' :: _ => true
  | _ => false

/-- A token that classifies as a flag (long or short), the boundary for
unbounded windows (spec glossary: "until the next recognized flag"). -/
def is_flag_token (t : String) : Bool := is_long_flag t || is_short_flag t

/-- First registered optional whose `_short` equals the given char
(spec §4.3 step 3: characters resolve against registered short flags). -/
def lookup_short (ch : Char) : List opt_spec → Option opt_spec
  | [] => none
  | o :: os => if o.short == ch then some o else lookup_short ch os

/-- Replaces the first registered optional whose `_short` equals the given
char by the image under `f` (in-place mutation of the matched spec). -/
def update_short (ch : Char) (f : opt_spec → opt_spec) :
    List opt_spec → List opt_spec
  | [] => []
  | o :: os => if o.short == ch then f o :: os else o :: update_short ch f os

/-- First registered optional whose `_long` equals the given name
(spec §4.3 step 2: exact long-name match). -/
def lookup_long (nm : String) : List opt_spec → Option opt_spec
  | [] => none
  | o :: os => if o.long == nm then some o else lookup_long nm os

/-- Replaces the first registered optional whose `_long` equals the given
name by the image under `f` (in-place mutation of the matched spec). -/
def update_long (nm : String) (f : opt_spec → opt_spec) :
    List opt_spec → List opt_spec
  | [] => []
  | o :: os => if o.long == nm then f o :: os else o :: update_long nm f os

/-- Modelled from the spec: the token window the engine offers to a matched
Optional Spec's consume. A flag takes no tokens (arity 0); a value is
offered the remaining window (arity 1, its consume caps at one token); a
list's unbounded arity means "as many as are available before the next
recognized flag token or end of the current token window" (spec §4.1). -/
def window_for (o : opt_spec) (rest : List String) : List String :=
  match o with
  | .flag _ _ _ => []
  | .value _ _ _ => rest
  | .list _ _ _ => rest.takeWhile (fun x => !is_flag_token x)

/-- Dispatches a window to the matched optional's own `parse` member
(dynamic dispatch over the `optional` subclasses), with the identity
string converter. -/
def opt_spec.consume : opt_spec → List String → opt_spec × Int
  | .flag s l st, w =>
    let p := optional_flag.parse st w
    (.flag s l p.1, p.2)
  | .value s l st, w =>
    let p := optional_value.parse (fun x => x) st w
    (.value s l p.1, p.2)
  | .list s l st, w =>
    let p := optional_list.parse (fun x => x) st w
    (.list s l p.1, p.2)

/-- Modelled from the spec (§4.3 step 3): in a token of the form `-xyz`
each character is resolved independently against registered short flags.
All of them must resolve to flag-type specs, and each is incremented once;
a character resolving to a value-taking spec is AmbiguousShortGroup, an
unknown character is UnknownOption. -/
def apply_short_group : List Char → List opt_spec → Except parse_error (List opt_spec)
  | [], os => .ok os
  | ch :: chs, os =>
    match lookup_short ch os with
    | none => .error .unknown_option
    | some (.flag _ _ _) =>
        apply_short_group chs (update_short ch (fun o => (o.consume []).1) os)
    | some _ => .error .ambiguous_short_group

/-- Modelled from the spec (§4.3 step 4): the first not-yet-satisfied
Required Spec, in declared order, is offered the window via its own `parse`
member with the identity string converter. Returns `none` when every
Required Spec is already satisfied (the token then falls through to
subcommand matching). -/
def consume_positional (w : List String) :
    List req_spec → Option (List req_spec × Int)
  | [] => none
  | r :: rs =>
    if r.satisfied then
      match consume_positional w rs with
      | none => none
      | some (rs2, k) => some (r :: rs2, k)
    else
      match r with
      | .value n st =>
        let p := required_value.parse (fun x => x) st w
        some (.value n p.1 :: rs, p.2)
      | .list n st =>
        let p := required_list.parse (fun x => x) st w
        some (.list n p.1 :: rs, p.2)

/-- Parsing-relevant state of an `argparse::command`: the `_optional` and
`_required` registries. Child subcommands (`_commands`) are omitted: no
claim exercises subcommand dispatch, so the modelled commands are leaves. -/
structure cmd where
  optionals : List opt_spec
  requireds : List req_spec
  deriving Repr, DecidableEq

/-- Termination condition of spec §4.3 step 5: every Required Spec
satisfied. -/
def all_satisfied (rs : List req_spec) : Bool := rs.all req_spec.satisfied

/-- Modelled from the spec (§4.3): one invocation of `command::parse` over a
shrinking token window, written with a step-count (fuel) so the recursion is
structural. `cmd_parse` supplies the window length as fuel; every step
consumes at least one token, so the zero-fuel branch on a nonempty window is
unreachable from `cmd_parse`. On window exhaustion the invocation succeeds
iff all Required Specs are satisfied; a long flag is looked up by exact
stripped name, a short token of one character delegates like a long flag, a
multi-character short token is a grouped-flag expansion, and any other token
is offered to the first unsatisfied Required Spec with the window cut before
the next flag-classifying token. The result is the count of consumed tokens
or the error kind; the mutated registries are threaded through. -/
def cmd_parse_go : Nat → cmd → List String → cmd × Except parse_error Nat
  | _, c, [] =>
    (c, if all_satisfied c.requireds then .ok 0 else .error .unsatisfied_required)
  | 0, c, _ :: _ => (c, .error .unexpected_token)
  | fuel + 1, c, t :: rest =>
    if is_long_flag t then
      match lookup_long (String.mk (t.toList.drop 2)) c.optionals with
      | none => (c, .error .unknown_option)
      | some o =>
        let p := o.consume (window_for o rest)
        if p.2 < 0 then (c, .error .missing_value)
        else
          let k := p.2.toNat
          let c2 : cmd :=
            ⟨update_long (String.mk (t.toList.drop 2)) (fun _ => p.1) c.optionals,
             c.requireds⟩
          let r := cmd_parse_go fuel c2 (rest.drop k)
          (r.1, r.2.map (fun n => n + 1 + k))
    else if is_short_flag t then
      match t.toList.drop 1 with
      | [ch] =>
        match lookup_short ch c.optionals with
        | none => (c, .error .unknown_option)
        | some o =>
          let p := o.consume (window_for o rest)
          if p.2 < 0 then (c, .error .missing_value)
          else
            let k := p.2.toNat
            let c2 : cmd := ⟨update_short ch (fun _ => p.1) c.optionals, c.requireds⟩
            let r := cmd_parse_go fuel c2 (rest.drop k)
            (r.1, r.2.map (fun n => n + 1 + k))
      | chs =>
        match apply_short_group chs c.optionals with
        | .error e => (c, .error e)
        | .ok os =>
          let r := cmd_parse_go fuel ⟨os, c.requireds⟩ rest
          (r.1, r.2.map (fun n => n + 1))
    else
      let w := (t :: rest).takeWhile (fun x => !is_flag_token x)
      match consume_positional w c.requireds with
      | none => (c, .error .unexpected_token)
      | some (rs2, res) =>
        if res < 1 then (c, .error .missing_value)
        else
          let k := res.toNat
          let r := cmd_parse_go fuel ⟨c.optionals, rs2⟩ ((t :: rest).drop k)
          (r.1, r.2.map (fun n => n + k))

/-- Modelled from the spec (§4.3): `command::parse` on a token window.
Returns the mutated command state and the count of consumed tokens, or the
parse error kind (the source's negative sentinel values). -/
def cmd_parse (c : cmd) (argv : List String) : cmd × Except parse_error Nat :=
  cmd_parse_go argv.length c argv

/-! ## Helper lemmas -/

/-- Short-flag lookup finds a spec whose short char matches, past a prefix
of specs with other short chars. -/
theorem lookup_short_append (ch : Char) (pre suf : List opt_spec) (o : opt_spec)
    (hpre : ∀ p ∈ pre, p.short ≠ ch) (ho : o.short = ch) :
    lookup_short ch (pre ++ o :: suf) = some o := by
  induction pre with
  | nil => simp [lookup_short, ho]
  | cons q qs ih =>
      have hq : q.short ≠ ch := hpre q (by simp)
      simp only [List.cons_append, lookup_short]
      rw [if_neg (by simpa using hq)]
      exact ih (fun p hp => hpre p (by simp [hp]))

/-- Short-flag update rewrites the first spec whose short char matches,
past a prefix of specs with other short chars. -/
theorem update_short_append (ch : Char) (f : opt_spec → opt_spec)
    (pre suf : List opt_spec) (o : opt_spec)
    (hpre : ∀ p ∈ pre, p.short ≠ ch) (ho : o.short = ch) :
    update_short ch f (pre ++ o :: suf) = pre ++ f o :: suf := by
  induction pre with
  | nil => simp [update_short, ho]
  | cons q qs ih =>
      have hq : q.short ≠ ch := hpre q (by simp)
      simp only [List.cons_append, update_short]
      rw [if_neg (by simpa using hq)]
      exact congrArg (q :: ·) (ih (fun p hp => hpre p (by simp [hp])))

/-- One character of a short-flag group that resolves to a flag spec
increments that flag's occurrence counter and sets its boolean. -/
theorem apply_short_group_flag_step (ch : Char) (chs : List Char)
    (pre suf : List opt_spec) (l : String) (st : optional_flag)
    (hpre : ∀ p ∈ pre, p.short ≠ ch) :
    apply_short_group (ch :: chs) (pre ++ .flag ch l st :: suf)
      = apply_short_group chs (pre ++ .flag ch l ⟨st.cnt + 1, true⟩ :: suf) := by
  simp only [apply_short_group]
  rw [lookup_short_append ch pre suf (.flag ch l st) hpre rfl]
  rw [update_short_append ch (fun o => (o.consume []).1) pre suf (.flag ch l st) hpre rfl]
  rfl

/-- Engine step on a lone `-v` token when a flag spec with short char `v` is
registered: the flag is incremented and set, the window advances by one
token, and the consumed-token count grows by one. -/
theorem cmd_parse_go_dash_v (fuel : Nat) (pre suf : List opt_spec)
    (rs : List req_spec) (st : optional_flag) (w : List String)
    (hpre : ∀ p ∈ pre, p.short ≠ 'v') :
    cmd_parse_go (fuel + 1) ⟨pre ++ .flag 'v' "verbose" st :: suf, rs⟩ ("-v" :: w)
      = ((cmd_parse_go fuel ⟨pre ++ .flag 'v' "verbose" ⟨st.cnt + 1, true⟩ :: suf, rs⟩ w).1,
         (cmd_parse_go fuel ⟨pre ++ .flag 'v' "verbose" ⟨st.cnt + 1, true⟩ :: suf, rs⟩ w).2.map
           (fun n => n + 1)) := by
  have h1 : cmd_parse_go (fuel + 1) ⟨pre ++ .flag 'v' "verbose" st :: suf, rs⟩ ("-v" :: w)
      = (match lookup_short 'v' (pre ++ .flag 'v' "verbose" st :: suf) with
         | none => (⟨pre ++ .flag 'v' "verbose" st :: suf, rs⟩, .error .unknown_option)
         | some o =>
           let p := o.consume (window_for o w)
           if p.2 < 0 then
             (⟨pre ++ .flag 'v' "verbose" st :: suf, rs⟩, .error .missing_value)
           else
             let k := p.2.toNat
             let r := cmd_parse_go fuel
               ⟨update_short 'v' (fun _ => p.1) (pre ++ .flag 'v' "verbose" st :: suf), rs⟩
               (w.drop k)
             (r.1, r.2.map (fun n => n + 1 + k))) := rfl
  rw [h1, lookup_short_append 'v' pre suf (.flag 'v' "verbose" st) hpre rfl]
  show ((cmd_parse_go fuel
          ⟨update_short 'v' (fun _ => opt_spec.flag 'v' "verbose" ⟨st.cnt + 1, true⟩)
             (pre ++ opt_spec.flag 'v' "verbose" st :: suf), rs⟩ w).1,
        (cmd_parse_go fuel
          ⟨update_short 'v' (fun _ => opt_spec.flag 'v' "verbose" ⟨st.cnt + 1, true⟩)
             (pre ++ opt_spec.flag 'v' "verbose" st :: suf), rs⟩ w).2.map (fun n => n + 1)) = _
  rw [update_short_append 'v' (fun _ => opt_spec.flag 'v' "verbose" ⟨st.cnt + 1, true⟩)
        pre suf (opt_spec.flag 'v' "verbose" st) hpre rfl]

/-! ## Claim theorems -/

/-- Claim C1: for every value-arity spec (`optional_value<T>`,
`required_value<T>`) and every list-arity spec (`optional_list<T>`,
`required_list<T>`), `parse` on a token window of length `len >= 1`
converts and stores `min(len, arity)` tokens and returns the count actually
consumed: a value spec stores the converted first token and returns 1; a
list spec converts and appends every token of the window in order and
returns `len`. -/
theorem claim_C1_value_and_list_consume {T : Type} (conv : String → T)
    (ov : optional_value T) (ol : optional_list T)
    (rv : required_value T) (rl : required_list T)
    (a : String) (w : List String) :
    optional_value.parse conv ov (a :: w) = (⟨some (conv a)⟩, 1)
  ∧ required_value.parse conv rv (a :: w) = (⟨some (conv a)⟩, 1)
  ∧ optional_list.parse conv ol (a :: w)
      = (⟨ol.values ++ (a :: w).map conv⟩, Int.ofNat (a :: w).length)
  ∧ required_list.parse conv rl (a :: w)
      = (⟨rl.values ++ (a :: w).map conv⟩, Int.ofNat (a :: w).length) :=
  ⟨rfl, rfl, rfl, rfl⟩

/-- Claim C2: for any command with a registered `-v`/`--verbose` flag (any
other registered optionals may precede or follow it, provided the earlier
ones do not also use the short char `v`, which registration forbids),
parsing `["-v","-v","-v"]` and parsing `["-vvv"]` both leave the flag spec
with occurrence count 3 and the set boolean true. -/
theorem claim_C2_repeated_and_grouped_flags (pre suf : List opt_spec)
    (rs : List req_spec) (hpre : ∀ p ∈ pre, p.short ≠ 'v') :
    ((cmd_parse ⟨pre ++ .flag 'v' "verbose" ⟨0, false⟩ :: suf, rs⟩
        ["-v", "-v", "-v"]).1).optionals
      = pre ++ .flag 'v' "verbose" ⟨3, true⟩ :: suf
  ∧ ((cmd_parse ⟨pre ++ .flag 'v' "verbose" ⟨0, false⟩ :: suf, rs⟩
        ["-vvv"]).1).optionals
      = pre ++ .flag 'v' "verbose" ⟨3, true⟩ :: suf := by
  constructor
  · show ((cmd_parse_go 3 ⟨pre ++ .flag 'v' "verbose" ⟨0, false⟩ :: suf, rs⟩
        ["-v", "-v", "-v"]).1).optionals = _
    rw [cmd_parse_go_dash_v 2 pre suf rs ⟨0, false⟩ ["-v", "-v"] hpre]
    show ((cmd_parse_go 2 ⟨pre ++ .flag 'v' "verbose" ⟨1, true⟩ :: suf, rs⟩
        ["-v", "-v"]).1).optionals = _
    rw [cmd_parse_go_dash_v 1 pre suf rs ⟨1, true⟩ ["-v"] hpre]
    show ((cmd_parse_go 1 ⟨pre ++ .flag 'v' "verbose" ⟨2, true⟩ :: suf, rs⟩
        ["-v"]).1).optionals = _
    rw [cmd_parse_go_dash_v 0 pre suf rs ⟨2, true⟩ [] hpre]
    rfl
  · have hg : apply_short_group ['v', 'v', 'v'] (pre ++ .flag 'v' "verbose" ⟨0, false⟩ :: suf)
        = .ok (pre ++ .flag 'v' "verbose" ⟨3, true⟩ :: suf) := by
      rw [apply_short_group_flag_step 'v' ['v', 'v'] pre suf "verbose" ⟨0, false⟩ hpre]
      show apply_short_group ['v', 'v'] (pre ++ .flag 'v' "verbose" ⟨1, true⟩ :: suf) = _
      rw [apply_short_group_flag_step 'v' ['v'] pre suf "verbose" ⟨1, true⟩ hpre]
      show apply_short_group ['v'] (pre ++ .flag 'v' "verbose" ⟨2, true⟩ :: suf) = _
      rw [apply_short_group_flag_step 'v' [] pre suf "verbose" ⟨2, true⟩ hpre]
      rfl
    have hstep : cmd_parse_go 1 ⟨pre ++ .flag 'v' "verbose" ⟨0, false⟩ :: suf, rs⟩ ["-vvv"]
        = (match apply_short_group ['v', 'v', 'v']
              (pre ++ .flag 'v' "verbose" ⟨0, false⟩ :: suf) with
           | .error e => (⟨pre ++ .flag 'v' "verbose" ⟨0, false⟩ :: suf, rs⟩, .error e)
           | .ok os =>
             ((cmd_parse_go 0 ⟨os, rs⟩ []).1,
              (cmd_parse_go 0 ⟨os, rs⟩ []).2.map (fun n => n + 1))) := rfl
    show ((cmd_parse_go 1 ⟨pre ++ .flag 'v' "verbose" ⟨0, false⟩ :: suf, rs⟩
        ["-vvv"]).1).optionals = _
    rw [hstep, hg]
    rfl

/-- Witness for claim C2: the command holding exactly the `-v`/`--verbose`
flag, evaluated on both token vectors. -/
theorem claim_C2_repeated_and_grouped_flags_witness :
    ((cmd_parse ⟨[.flag 'v' "verbose" ⟨0, false⟩], []⟩ ["-v", "-v", "-v"]).1).optionals
        = [.flag 'v' "verbose" ⟨3, true⟩]
  ∧ ((cmd_parse ⟨[.flag 'v' "verbose" ⟨0, false⟩], []⟩ ["-vvv"]).1).optionals
        = [.flag 'v' "verbose" ⟨3, true⟩] := by
  have h := claim_C2_repeated_and_grouped_flags [] [] [] (by simp)
  simpa using h

/-- Claim C3: for every value-arity or list-arity spec, `parse` returns the
`-1` failure sentinel exactly when the token window is empty (`len < 1`),
and on any non-empty window it returns a non-negative count. -/
theorem claim_C3_minus_one_iff_empty_window {T : Type} (conv : String → T)
    (ov : optional_value T) (ol : optional_list T)
    (rv : required_value T) (rl : required_list T) (w : List String) :
    (((optional_value.parse conv ov w).2 = -1 ↔ w = [])
      ∧ ((required_value.parse conv rv w).2 = -1 ↔ w = [])
      ∧ ((optional_list.parse conv ol w).2 = -1 ↔ w = [])
      ∧ ((required_list.parse conv rl w).2 = -1 ↔ w = []))
  ∧ (w ≠ [] →
      0 ≤ (optional_value.parse conv ov w).2
      ∧ 0 ≤ (required_value.parse conv rv w).2
      ∧ 0 ≤ (optional_list.parse conv ol w).2
      ∧ 0 ≤ (required_list.parse conv rl w).2) := by
  cases w with
  | nil =>
      refine ⟨⟨?_, ?_, ?_, ?_⟩, ?_⟩ <;>
        simp [optional_value.parse, required_value.parse,
          optional_list.parse, required_list.parse]
  | cons a w =>
      refine ⟨⟨?_, ?_, ?_, ?_⟩, ?_⟩ <;>
        simp [optional_value.parse, required_value.parse,
          optional_list.parse, required_list.parse] <;> omega

/-- Witness for claim C3 at the singleton window `["x"]` (string payloads,
identity converter). -/
theorem claim_C3_minus_one_iff_empty_window_witness :
    (((optional_value.parse (fun s => s) ⟨none⟩ ["x"]).2 = -1 ↔ (["x"] : List String) = [])
      ∧ ((required_value.parse (fun s => s) ⟨none⟩ ["x"]).2 = -1 ↔ (["x"] : List String) = [])
      ∧ ((optional_list.parse (fun s => s) ⟨[]⟩ ["x"]).2 = -1 ↔ (["x"] : List String) = [])
      ∧ ((required_list.parse (fun s => s) ⟨[]⟩ ["x"]).2 = -1 ↔ (["x"] : List String) = []))
  ∧ (0 ≤ (optional_value.parse (fun s => s) ⟨none⟩ ["x"]).2
      ∧ 0 ≤ (required_value.parse (fun s => s) ⟨none⟩ ["x"]).2
      ∧ 0 ≤ (optional_list.parse (fun s => s) ⟨[]⟩ ["x"]).2
      ∧ 0 ≤ (required_list.parse (fun s => s) ⟨[]⟩ ["x"]).2) := by
  have h := claim_C3_minus_one_iff_empty_window (fun s => s) ⟨none⟩ ⟨[]⟩ ⟨none⟩ ⟨[]⟩ ["x"]
  exact ⟨h.1, h.2 (by decide)⟩

/-- Claim C4: for a command with a required list positional followed by a
registered optional flag `--flag`, parsing `["a","b","--flag"]` assigns the
list the values `["a","b"]` and does not consume `"--flag"` as a list
element — the window offered to the positional's consume stops before the
next token that classifies as a flag, and `"--flag"` is then handled as the
flag it names. -/
theorem claim_C4_positional_list_stops_before_flag (ch : Char) (st : optional_flag) :
    cmd_parse ⟨[.flag ch "flag" st], [.list "items" ⟨[]⟩]⟩ ["a", "b", "--flag"]
      = (⟨[.flag ch "flag" ⟨st.cnt + 1, true⟩], [.list "items" ⟨["a", "b"]⟩]⟩,
         .ok 3) := rfl

/-- Claim C5: registering an optional spec whose short or long flag
collides with an already-registered optional, or a required spec whose name
collides with an already-registered required argument, fails at
registration time with the duplicate-argument error and does not extend the
registry (the error carries no updated registry), before any parse is
attempted. -/
theorem claim_C5_duplicate_registration_fails (regO : List opt_spec) (o : opt_spec)
    (regR : List req_spec) (r : req_spec)
    (hO : ∃ p ∈ regO, p.short = o.short ∨ p.long = o.long)
    (hR : ∃ p ∈ regR, p.name = r.name) :
    add_optional_arg regO o
      = .error ("Duplicated optional argument for " ++ o.short.toString ++ "/" ++ o.long)
  ∧ add_required_arg regR r
      = .error ("Duplicated required argument for " ++ r.name) := by
  constructor
  · rw [add_optional_arg, if_pos]
    obtain ⟨p, hp, hcase⟩ := hO
    exact List.any_eq_true.mpr ⟨p, hp, by cases hcase <;> simp_all⟩
  · rw [add_required_arg, if_pos]
    obtain ⟨p, hp, hcase⟩ := hR
    exact List.any_eq_true.mpr ⟨p, hp, by simp [hcase]⟩

/-- Witness for claim C5: a second optional reusing short char `v`, and a
second required argument reusing the name `count`. -/
theorem claim_C5_duplicate_registration_fails_witness :
    add_optional_arg [.flag 'v' "verbose" ⟨0, false⟩] (.flag 'v' "v2" ⟨0, false⟩)
      = .error ("Duplicated optional argument for "
          ++ (opt_spec.flag 'v' "v2" ⟨0, false⟩).short.toString ++ "/"
          ++ (opt_spec.flag 'v' "v2" ⟨0, false⟩).long)
  ∧ add_required_arg [.value "count" ⟨none⟩] (.value "count" ⟨none⟩)
      = .error ("Duplicated required argument for "
          ++ (req_spec.value "count" ⟨none⟩).name) :=
  claim_C5_duplicate_registration_fails _ _ _ _
    ⟨.flag 'v' "verbose" ⟨0, false⟩, by simp, Or.inl rfl⟩
    ⟨.value "count" ⟨none⟩, by simp, rfl⟩

/-- Claim C6 evidence: the registration helper for required arguments,
`add_required_arg`, has deduced return type `void` (its body has no return
statement), while `add_req_value<T>` and the name-keyed `add_req_list<T>`
declare reference return types — and of the optional spec classes, not the
required ones they register. So no handle of the registered required
spec's own type is (or can be) returned. -/
theorem claim_C6_required_registration_yields_no_handle :
    add_required_arg_return_type = cxx_type.void
  ∧ add_req_value_declared_return_type ≠ cxx_type.ref_required_value
  ∧ add_req_list_declared_return_type ≠ cxx_type.ref_required_list
  ∧ add_req_value_declared_return_type = cxx_type.ref_optional_value
  ∧ add_req_list_declared_return_type = cxx_type.ref_optional_list := by
  refine ⟨rfl, ?_, ?_, rfl, rfl⟩ <;> decide

/-- Claim C7: list-arity consume appends to the already-accumulated
sequence and never clears it: two successive successful consume calls leave
the stored sequence equal to the prior contents followed by the parsed
values of the first window and then of the second window. -/
theorem claim_C7_list_consume_appends {T : Type} (conv : String → T) (vs us : List T)
    (a b : String) (w1 w2 : List String) :
    ((optional_list.parse conv
        ((optional_list.parse conv ⟨vs⟩ (a :: w1)).1) (b :: w2)).1).get_values
        = vs ++ (a :: w1).map conv ++ (b :: w2).map conv
  ∧ ((required_list.parse conv
        ((required_list.parse conv ⟨us⟩ (a :: w1)).1) (b :: w2)).1).get_values
        = us ++ (a :: w1).map conv ++ (b :: w2).map conv :=
  ⟨rfl, rfl⟩

/-- Claim C8: when `parse` returns the `-1` sentinel (possible only on an
empty window), the spec's accumulated payload is exactly what it was before
the call. -/
theorem claim_C8_state_unchanged_on_failure {T : Type} (conv : String → T)
    (ov : optional_value T) (ol : optional_list T)
    (rv : required_value T) (rl : required_list T) (w : List String) :
    ((optional_value.parse conv ov w).2 = -1 → (optional_value.parse conv ov w).1 = ov)
  ∧ ((required_value.parse conv rv w).2 = -1 → (required_value.parse conv rv w).1 = rv)
  ∧ ((optional_list.parse conv ol w).2 = -1 → (optional_list.parse conv ol w).1 = ol)
  ∧ ((required_list.parse conv rl w).2 = -1 → (required_list.parse conv rl w).1 = rl) := by
  cases w with
  | nil => exact ⟨fun _ => rfl, fun _ => rfl, fun _ => rfl, fun _ => rfl⟩
  | cons a w =>
      refine ⟨fun h => ?_, fun h => ?_, fun h => ?_, fun h => ?_⟩
      · simp [optional_value.parse] at h
      · simp [required_value.parse] at h
      · simp [optional_list.parse] at h; omega
      · simp [required_list.parse] at h; omega

/-- Witness for claim C8 at the empty window (string payloads, identity
converter), where the sentinel is actually returned. -/
theorem claim_C8_state_unchanged_on_failure_witness :
    (optional_value.parse (fun s => s) ⟨none⟩ []).1 = ⟨none⟩
  ∧ (required_value.parse (fun s => s) ⟨none⟩ []).1 = ⟨none⟩
  ∧ (optional_list.parse (fun s => s) ⟨[]⟩ []).1 = ⟨[]⟩
  ∧ (required_list.parse (fun s => s) ⟨[]⟩ []).1 = ⟨[]⟩ := by
  have h := claim_C8_state_unchanged_on_failure (fun s => s) ⟨none⟩ ⟨[]⟩ ⟨none⟩ ⟨[]⟩ []
  exact ⟨h.1 rfl, h.2.1 rfl, h.2.2.1 rfl, h.2.2.2 rfl⟩

/-- Claim C9: for single-value specs a later successful consume overwrites
the stored value: after a consume on a non-empty window, `get_value`
returns the conversion of that window's first token, whatever the previous
state was — in particular after two successive consumes the second wins. -/
theorem claim_C9_last_value_wins {T : Type} (conv : String → T)
    (ov : optional_value T) (rv : required_value T)
    (a b : String) (w1 w2 : List String) :
    ((optional_value.parse conv ov (b :: w2)).1).get_value = some (conv b)
  ∧ ((required_value.parse conv rv (b :: w2)).1).get_value = some (conv b)
  ∧ ((optional_value.parse conv
        ((optional_value.parse conv ov (a :: w1)).1) (b :: w2)).1).get_value
      = some (conv b)
  ∧ ((required_value.parse conv
        ((required_value.parse conv rv (a :: w1)).1) (b :: w2)).1).get_value
      = some (conv b) :=
  ⟨rfl, rfl, rfl, rfl⟩

/-- Claim C10: the name-keyed retrieval helpers reach the `abort()` branch
whenever no registered spec matches the requested long name (for
`get_optional`) or name (for `get_required`); they never return normally
for an unregistered name. -/
theorem claim_C10_unknown_name_aborts (regO : List opt_spec) (l : String)
    (regR : List req_spec) (n : String)
    (hO : ∀ o ∈ regO, o.long ≠ l) (hR : ∀ r ∈ regR, r.name ≠ n) :
    get_optional regO l = .aborted ∧ get_required regR n = .aborted := by
  constructor
  · rw [get_optional]
    rw [List.filter_eq_nil_iff.mpr (fun o ho => by simp [hO o ho])]
  · rw [get_required]
    rw [List.filter_eq_nil_iff.mpr (fun r hr => by simp [hR r hr])]

/-- Witness for claim C10: a registry with long name `verbose` probed for
`color`, and a registry with required name `count` probed for `size`. -/
theorem claim_C10_unknown_name_aborts_witness :
    get_optional [.flag 'v' "verbose" ⟨0, false⟩] "color" = .aborted
  ∧ get_required [.value "count" ⟨none⟩] "size" = .aborted :=
  claim_C10_unknown_name_aborts _ _ _ _
    (by intro o ho; simp at ho; subst ho; decide)
    (by intro r hr; simp at hr; subst hr; decide)

end Argparse
